import Mathlib

/-!
Verification development for `Orange/widgets/data/owsql.py` (the OWSql
widget: a SQL-source ingestion engine).  The Python source is embedded
shallowly: the resource-file query parser, the custom-query resolver with
its materialization sequencing, and the size-gated download policy of
`OWSql.get_table`, plus the `on_connection_success` / `clear` handling of
the download checkbox.  External collaborators (Qt dialogs, the database
backend, the `SqlTable` relation abstraction) are modelled as explicit
parameters; decision dialogs become enumerated choice inputs and the
statements issued to the backend are collected in a trace.
-/

/-- The hard row cap `MAX_DL_LIMIT = 1000000` (owsql.py line 16). -/
def MAX_DL_LIMIT : Nat := 1000000

/-! ### Small string utilities mirroring the Python primitives used -/

/-- Index of the first occurrence of `pat` in `s` (Python `str.find`,
returning `none` instead of `-1`). -/
def findSub (pat : List Char) : List Char → Option Nat
  | [] => if pat = [] then some 0 else none
  | c :: cs =>
    if List.isPrefixOf pat (c :: cs) then some 0
    else (findSub pat cs).map (· + 1)

/-- Does `s` contain `pat` as a contiguous substring? -/
def containsSub (pat s : List Char) : Bool := (findSub pat s).isSome

/-- Python `str.strip()`: drop leading and trailing whitespace. -/
def pyStrip (s : String) : String :=
  String.mk (((s.data.dropWhile Char.isWhitespace).reverse.dropWhile
    Char.isWhitespace).reverse)

/-- Python `str.upper()` (ASCII case mapping). -/
def pyUpper (s : String) : String := String.mk (s.data.map Char.toUpper)

/-- Python `str(x)` on an optional string: `str(None) = "None"`. -/
def pyStr : Option String → String
  | none => "None"
  | some s => s

/-! ### ResourceFileParser: `OWSql._parse_sql_resource_file` (lines 109-150)

The file is read with `readline()`, so each line keeps its trailing
newline except possibly the last one.  The four regexes of the source are
modelled by their exact match semantics on such lines:

* `name_pattern = ^-- name:(.*)$` (with `search`, `^`/`$` anchored to the
  whole line): matches iff the line starts with `-- name:`; the captured
  group is the rest of the line without the trailing newline.
* `ignore_line = ^--.*` (with `match`): the line starts with `--`.
* `start_query = ^SELECT|select` (with `search`): by regex alternation
  precedence this is `(^SELECT)|(select)`, i.e. the line starts with
  `SELECT` **or contains `select` anywhere**.
* `stop_query = ;$` (with `search`): the line ends with `;` or `;\n`
  (`$` also matches just before a final newline).
-/

/-- Split a raw file content into the chunks returned by repeated
`readline()` calls: each chunk includes its trailing newline, and a last
chunk without a newline is kept. -/
def readLinesAux : List Char → List Char → List (List Char)
  | [], acc => if acc.isEmpty then [] else [acc.reverse]
  | c :: cs, acc =>
    if c = '\n' then (acc.reverse ++ ['\n']) :: readLinesAux cs []
    else readLinesAux cs (c :: acc)

/-- All lines of a file as `readline()` returns them. -/
def readLines (s : String) : List String :=
  (readLinesAux s.data []).map String.mk

/-- `name_pattern.search(line)`: `^-- name:(.*)$`.  Returns the captured
name when the line is a name line. -/
def name_pattern (line : String) : Option String :=
  if List.isPrefixOf ("-- name:".data) line.data then
    some (String.mk (dropTrailingNl (line.data.drop 8)))
  else none
where
  /-- `(.*)$` cannot capture the final newline. -/
  dropTrailingNl (cs : List Char) : List Char :=
    match cs.reverse with
    | '\n' :: rest => rest.reverse
    | _ => cs

/-- `ignore_line.match(line)`: `^--.*`. -/
def ignore_line (line : String) : Bool :=
  List.isPrefixOf ("--".data) line.data

/-- `start_query.search(line)`: `^SELECT|select` is
`(^SELECT)|(select)` — `SELECT` anchored at the start, or `select`
anywhere in the line. -/
def start_query (line : String) : Bool :=
  List.isPrefixOf ("SELECT".data) line.data ||
    containsSub ("select".data) line.data

/-- `stop_query.search(line)`: `;$` — the line ends with `;`, or with
`;` followed only by the final newline. -/
def stop_query (line : String) : Bool :=
  match line.data.reverse with
  | ';' :: _ => true
  | '\n' :: ';' :: _ => true
  | _ => false

/-- `trn = lambda x: str(x).strip().upper()`; applied to the pending name,
which may be `None`. -/
def trn (x : Option String) : String := pyUpper (pyStrip (pyStr x))

/-- `delete_comments(line) = line[:line.find('--')]`.  When `--` does not
occur, `find` returns `-1` and the slice drops the **last character** of
the line. -/
def delete_comments (line : String) : String :=
  match findSub ("--".data) line.data with
  | some i => String.mk (line.data.take i)
  | none => String.mk line.data.dropLast

/-- Python-dict insertion: overwrite in place if the key exists, else
append at the end. -/
def dictInsert (d : List (String × String)) (k v : String) :
    List (String × String) :=
  if d.any (fun p => p.1 = k) then
    d.map (fun p => if p.1 = k then (k, v) else p)
  else d ++ [(k, v)]

/-- Parser state of the `while` loop: the pending `name`, the
accumulation buffer `query`, and the result mapping `selects`. -/
structure ParseState where
  name : Option String
  query : List String
  selects : List (String × String)
deriving Repr, DecidableEq

/-- One iteration of the loop body of `_parse_sql_resource_file` for one
line.  The first `if`-tree handles name lines (comment lines `continue`,
skipping the second tree) and complete one-line queries; the second
`if`-tree handles accumulation and completion of multi-line queries. -/
def processLine (st : ParseState) (line : String) : ParseState :=
  match name_pattern line with
  | some n => secondTree { st with name := some n } line
  | none =>
    if ignore_line line then st
    else if start_query line && stop_query line then
      secondTree
        { st with selects := dictInsert st.selects (trn st.name) line,
                  name := none } line
    else secondTree st line
where
  secondTree (st : ParseState) (line : String) : ParseState :=
    if start_query line && st.name.isSome then
      { st with query := st.query ++ [line] }
    else if stop_query line && st.name.isSome then
      { st with
        selects := dictInsert st.selects (trn st.name)
          (String.intercalate " " ((st.query ++ [line]).map delete_comments)),
        query := [], name := none }
    else if st.query ≠ [] then { st with query := st.query ++ [line] }
    else st

/-- `OWSql._parse_sql_resource_file` on a file with the given raw
content: fold the loop body over the lines, starting from
`name = None, query = [], selects = {}`, and return `selects`. -/
def parse_sql_resource_file (content : String) : List (String × String) :=
  ((readLines content).foldl processLine ⟨none, [], []⟩).selects

/-! ### SourceResolver: the Custom SQL branch of `OWSql.get_table`
(lines 315-335) -/

/-- Outcome of resolving the Custom SQL selection: the executable target
string on success, or a surfaced failure.  The empty-name check (line
319, before any backend call) and the caught `BackendError` (line 333)
are both rendered through `self.Error.connection` in the widget but arise
at distinct points; they are kept as distinct constructors. -/
inductive ResolveOutcome where
  | ok (target : String)
  | validationError (msg : String)
  | backendError (msg : String)
deriving Repr, DecidableEq

/-- The three SQL statements of the materialize block, in source order
(lines 324-331). -/
def materialize_statements (tname sqlText : String) : List String :=
  ["DROP TABLE IF EXISTS " ++ tname,
   "CREATE TABLE " ++ tname ++ " AS " ++ sqlText,
   "ANALYZE " ++ tname]

/-- Run statements in order against the backend `exec` until the first
`BackendError`; return the trace of statements actually issued and the
error message if one was raised.  Mirrors the three sequential
`with backend.execute_sql_query(...)` blocks inside one `try`. -/
def runStatements (exec : String → Except String Unit) :
    List String → List String × Option String
  | [] => ([], none)
  | s :: rest =>
    match exec s with
    | .ok _ =>
      let r := runStatements exec rest
      (s :: r.1, r.2)
    | .error m => ([s], some m)

/-- The Custom SQL branch (lines 315-335): `what = self.sql`; if
`materialize` is set, an empty table name fails before any backend call,
otherwise the drop / create-as / analyze sequence runs and a
`BackendError` aborts it.  On success the executable target is the
original SQL text.  Returns the backend-statement trace and the
outcome. -/
def resolve_custom_sql (materialize : Bool) (mat_name sqlText : String)
    (exec : String → Except String Unit) : List String × ResolveOutcome :=
  if materialize then
    if mat_name = "" then
      ([], .validationError "Specify a table name to materialize the query")
    else
      let r := runStatements exec (materialize_statements mat_name sqlText)
      match r.2 with
      | some m => (r.1, .backendError m)
      | none => (r.1, .ok sqlText)
  else ([], .ok sqlText)

/-! ### IngestionPipeline: the tail of `OWSql.get_table` (lines 337-424)

`SqlTable` is a relation abstraction living outside this file's source;
only its row counts matter here.  `approx_len` is the backend's row
estimate, `actual_len` the true cardinality. -/

structure Relation where
  approx_len : Nat
  actual_len : Nat
deriving Repr, DecidableEq

/-- Modelled from the spec: `SqlTable.download_data(limit)` followed by
`Table(table)` (lines 421-422) is not under `src/`; per the spec it
materializes the (possibly sampled) relation fully into local memory
"bounded by the hard maximum row cap" passed as `limit`.  The result is
the row count of the local table. -/
def download_data (r : Relation) (limit : Nat) : Nat :=
  min r.actual_len limit

/-- Dialogs shown during `get_table`, in order.  `sizeWarning` is the
one-button `QMessageBox.warning` of lines 406-410; the other three are
decision points with a choice of outcomes. -/
inductive Prompt where
  | discoveryPrompt
  | pgDownloadPrompt
  | questionPrompt
  | sizeWarning
deriving Repr, DecidableEq

/-- Outcome of the attribute-discovery dialog (lines 355-370).  The
sample button exists only on PostgreSQL. -/
inductive DiscChoice where
  | yes
  | no
  | sample
deriving Repr, DecidableEq

/-- Outcome of the PostgreSQL download dialog (lines 387-403): `yes` is
only offered when `approx_len ≤ MAX_DL_LIMIT`. -/
inductive PGChoice where
  | yes
  | no
  | sample
deriving Repr, DecidableEq

/-- Outcome of the binary `QMessageBox.question` for non-PostgreSQL
backends (lines 413-419). -/
inductive BinChoice where
  | yes
  | no
deriving Repr, DecidableEq

/-- The attribute-discovery gate (lines 352-371): returns the updated
`guess_values`, the `sample` flag, and the prompts shown.  On a
non-PostgreSQL backend no sample button exists, so a `sample` outcome
cannot be clicked and the dialog falls through like `yes`. -/
def discovery_phase (large_table : Nat) (guess_values : Bool)
    (is_pg : Bool) (t : Relation) (choice : DiscChoice) :
    Bool × Bool × List Prompt :=
  if large_table < t.approx_len ∧ guess_values then
    match choice with
    | .no => (false, false, [.discoveryPrompt])
    | .sample =>
      if is_pg then (guess_values, true, [.discoveryPrompt])
      else (guess_values, false, [.discoveryPrompt])
    | .yes => (guess_values, false, [.discoveryPrompt])
  else (guess_values, false, [])

/-- What the download block produces: `return None` or a local table
with the given number of rows. -/
inductive DLOutcome where
  | noDataset
  | dataset (rows : Nat)
deriving Repr, DecidableEq

/-- The download block (lines 384-422), entered only when `download` is
set.  `sample_fn` stands for
`table.sample_percentage(AUTO_DL_LIMIT / table.approx_len() * 100)`.
Every path that produces a dataset ends in
`table.download_data(MAX_DL_LIMIT)`. -/
def download_phase (auto_dl_limit : Nat) (is_pg : Bool) (t : Relation)
    (sample_fn : Relation → Relation) (pg_choice : PGChoice)
    (bin_choice : BinChoice) : DLOutcome × List Prompt :=
  if auto_dl_limit < t.approx_len then
    if is_pg then
      match pg_choice with
      | .no => (.noDataset, [.pgDownloadPrompt])
      | .sample =>
        (.dataset (download_data (sample_fn t) MAX_DL_LIMIT),
         [.pgDownloadPrompt])
      | .yes =>
        (.dataset (download_data t MAX_DL_LIMIT), [.pgDownloadPrompt])
    else
      if MAX_DL_LIMIT < t.approx_len then
        (.noDataset, [.sizeWarning])
      else
        match bin_choice with
        | .no => (.noDataset, [.questionPrompt])
        | .yes => (.dataset (download_data t MAX_DL_LIMIT), [.questionPrompt])
  else (.dataset (download_data t MAX_DL_LIMIT), [])

/-- The produced dataset: the lazy remote relation when not downloading,
or a local table with its row count. -/
inductive Dataset where
  | remote (r : Relation)
  | inMemory (rows : Nat)
deriving Repr, DecidableEq

/-- Inputs of one `get_table` run: widget settings, the current combobox
selection, and the external collaborators (backend execution, relation
opening, sampling, the threshold constants `LARGE_TABLE` and
`AUTO_DL_LIMIT` imported from `Orange.data.sql.table`, and the dialog
outcomes). -/
structure GetTableEnv where
  curIdx : Int
  itemText : String
  fileQueries : List (String × String)
  sqlText : String
  materialize : Bool
  materialize_table_name : String
  download : Bool
  guess_values : Bool
  is_pg : Bool
  exec : String → Except String Unit
  openRelation : String → Except String Relation
  sample_fn : Relation → Relation
  large_table : Nat
  auto_dl_limit : Nat
  discovery_choice : DiscChoice
  pg_choice : PGChoice
  bin_choice : BinChoice

/-- Result of one `get_table` run: the dataset (or `none`), the
`Error.connection` message if one was set, the backend statements issued
by materialization, and the dialogs shown. -/
structure GTResult where
  data : Option Dataset
  error : Option String
  stmts : List String
  prompts : List Prompt
deriving Repr, DecidableEq

/-- Opening the resolved target as a `SqlTable` (lines 337-348) and the
discovery and download phases that follow. -/
def open_and_ingest (env : GetTableEnv) (what : String)
    (stmts : List String) : GTResult :=
  match env.openRelation what with
  | .error m => ⟨none, some m, stmts, []⟩
  | .ok t =>
    let disc := discovery_phase env.large_table env.guess_values env.is_pg
      t env.discovery_choice
    if env.download then
      let dl := download_phase env.auto_dl_limit env.is_pg t env.sample_fn
        env.pg_choice env.bin_choice
      match dl.1 with
      | .noDataset => ⟨none, none, stmts, disc.2.2 ++ dl.2⟩
      | .dataset rows =>
        ⟨some (.inMemory rows), none, stmts, disc.2.2 ++ dl.2⟩
    else ⟨some (.remote t), none, stmts, disc.2.2⟩

/-- `OWSql.get_table` (lines 295-424): selection dispatch (file query /
live table / Custom SQL with optional materialization), then opening and
ingestion. -/
def get_table (env : GetTableEnv) : GTResult :=
  if env.curIdx ≤ 0 then ⟨none, none, [], []⟩
  else if env.fileQueries.any (fun p => p.1 = env.itemText) then
    open_and_ingest env env.sqlText []
  else if env.itemText ≠ "Custom SQL" then
    open_and_ingest env env.itemText []
  else
    let r := resolve_custom_sql env.materialize env.materialize_table_name
      env.sqlText env.exec
    match r.2 with
    | .validationError m => ⟨none, some m, r.1, []⟩
    | .backendError m => ⟨none, some m, r.1, []⟩
    | .ok what => open_and_ingest env what r.1

/-! ### Connection-success handling (lines 233-244) and `clear`
(lines 250-256) -/

/-- The widget state touched by `on_connection_success` and `clear`: the
`download` setting, whether the download checkbox is enabled, and the
missing-extension warning text. -/
structure UIState where
  download : Bool
  downloadcb_enabled : Bool
  warn_missing_extension : Option String
deriving Repr, DecidableEq

/-- `OWSql.on_connection_success` (lines 233-244): a truthy
`missing_extension` forces `download := True` and disables the checkbox;
so does a non-PostgreSQL backend. -/
def on_connection_success (st : UIState) (is_pg : Bool)
    (missing_extension : List String) : UIState :=
  let st1 :=
    if missing_extension ≠ [] then
      { st with
        warn_missing_extension :=
          some (String.intercalate ", " missing_extension),
        download := true, downloadcb_enabled := false }
    else st
  if ¬ is_pg then { st1 with download := true, downloadcb_enabled := false }
  else st1

/-- `OWSql.clear` (lines 250-256): clears the warning and re-enables the
download checkbox. -/
def widget_clear (st : UIState) : UIState :=
  { st with warn_missing_extension := none, downloadcb_enabled := true }

/-- A concrete pipeline environment (a small live table `t1` on a
non-PostgreSQL backend, download requested) used to instantiate the
theorems below. -/
def sampleEnv : GetTableEnv :=
  ⟨1, "t1", [], "SELECT 1", false, "", true, false, false,
   fun _ => Except.ok (), fun _ => Except.ok ⟨5, 5⟩, fun r => r,
   100000, 10000, DiscChoice.yes, PGChoice.yes, BinChoice.yes⟩

/-- `sampleEnv` pointed at a Custom SQL selection with materialization
requested but an empty table name. -/
def customEnvEmptyName : GetTableEnv :=
  { sampleEnv with itemText := "Custom SQL", materialize := true }

/-- `sampleEnv` whose backend reports two million rows for every opened
relation. -/
def bigTableEnv : GetTableEnv :=
  { sampleEnv with openRelation := fun _ => Except.ok ⟨2000000, 2000000⟩ }

/-! ### Helper lemmas -/

theorem head_of_isPrefixOf {a : Char} {as bs : List Char}
    (h : List.isPrefixOf (a :: as) bs = true) : ∃ cs, bs = a :: cs := by
  cases bs with
  | nil => simp [List.isPrefixOf] at h
  | cons b cs =>
    rw [List.isPrefixOf_iff_prefix] at h
    rcases List.cons_prefix_cons.mp h with ⟨rfl, -⟩
    exact ⟨cs, rfl⟩

theorem findSub_of_isPrefixOf {pat bs : List Char}
    (h : List.isPrefixOf pat bs = true) : findSub pat bs = some 0 := by
  cases bs with
  | nil =>
    cases pat with
    | nil => simp [findSub]
    | cons a as => simp [List.isPrefixOf] at h
  | cons c cs => simp [findSub, h]

theorem trn_none : trn none = "NONE" := by decide

/-- A line that begins with `SELECT` or `select` is neither a name line
nor a comment line, and is classified by `start_query`. -/
theorem select_line_facts {line : String}
    (h : List.isPrefixOf ("SELECT".data) line.data = true ∨
         List.isPrefixOf ("select".data) line.data = true) :
    name_pattern line = none ∧ ignore_line line = false ∧
      start_query line = true := by
  rcases h with h | h
  · obtain ⟨cs, hcs⟩ := head_of_isPrefixOf (a := 'S') h
    refine ⟨?_, ?_, ?_⟩
    · simp [name_pattern, hcs, List.isPrefixOf]
    · simp [ignore_line, hcs, List.isPrefixOf]
    · simp [start_query, h]
  · obtain ⟨cs, hcs⟩ := head_of_isPrefixOf (a := 's') h
    refine ⟨?_, ?_, ?_⟩
    · simp [name_pattern, hcs, List.isPrefixOf]
    · simp [ignore_line, hcs, List.isPrefixOf]
    · simp [start_query, containsSub, findSub_of_isPrefixOf h]

/-- Effect of one parser step on a line that begins with `SELECT` or
`select` and ends a query: the line is stored under the normalized
pending name and the pending name is reset; the accumulation buffer is
not cleared, and the line is appended to it exactly when it is already
non-empty. -/
theorem processLine_select_stop (st : ParseState) (line : String)
    (hs : List.isPrefixOf ("SELECT".data) line.data = true ∨
          List.isPrefixOf ("select".data) line.data = true)
    (he : stop_query line = true) :
    (processLine st line).selects = dictInsert st.selects (trn st.name) line ∧
    (processLine st line).name = none ∧
    (processLine st line).query =
      (if st.query = [] then st.query else st.query ++ [line]) := by
  obtain ⟨hn, hi, hq⟩ := select_line_facts hs
  simp only [processLine, hn, hi, hq, he, Bool.and_self, if_true,
    Bool.false_eq_true]
  simp only [processLine.secondTree, Option.isSome_none, Bool.and_false,
    Bool.false_eq_true, if_false]
  split <;> simp_all

/-! ### Claim theorems: the resource-file parser -/

/-- Claim C5: parsing a resource file whose content is the line
`-- name:A` followed immediately by the line `SELECT 1;` returns exactly
the mapping from `"A"` (the trimmed, upper-cased captured name) to
exactly the text `"SELECT 1;"`. -/
theorem parse_single_one_line_query :
    parse_sql_resource_file "-- name:A\nSELECT 1;" = [("A", "SELECT 1;")] ∧
    trn (some "A") = "A" := by decide

/-- Claim C6, counterexample: a line that both starts a query (it begins
with `SELECT`) and ends one (it ends with `;`) does NOT leave a
non-empty in-progress accumulation buffer unchanged — the second
`if`-tree's final `elif query:` branch appends the line to it. -/
theorem one_line_query_touches_buffer_cex :
    List.isPrefixOf ("SELECT".data) ("SELECT 1;").data = true ∧
    stop_query "SELECT 1;" = true ∧
    (processLine ⟨some "B", ["SELECT x"], []⟩ "SELECT 1;").query ≠
      ["SELECT x"] := by decide

/-- Claim C6, amended: processing a line that begins with
`SELECT`/`select` and ends a query stores it immediately under the
case-upper-normalized pending name and resets the pending name; the
accumulation buffer is never cleared by such a line, and it is left
unchanged only when it was empty — when it is non-empty the line is
additionally appended to it. -/
theorem one_line_query_step (st : ParseState) (line : String)
    (hs : List.isPrefixOf ("SELECT".data) line.data = true ∨
          List.isPrefixOf ("select".data) line.data = true)
    (he : stop_query line = true) :
    (processLine st line).selects = dictInsert st.selects (trn st.name) line ∧
    (processLine st line).name = none ∧
    (processLine st line).query =
      (if st.query = [] then st.query else st.query ++ [line]) :=
  processLine_select_stop st line hs he

theorem one_line_query_step_witness :
    (List.isPrefixOf ("SELECT".data) ("SELECT 1;").data = true ∨
      List.isPrefixOf ("select".data) ("SELECT 1;").data = true) ∧
    stop_query "SELECT 1;" = true ∧
    ((processLine ⟨some "B", ["SELECT x"], []⟩ "SELECT 1;").selects =
        dictInsert [] (trn (some "B")) "SELECT 1;" ∧
      (processLine ⟨some "B", ["SELECT x"], []⟩ "SELECT 1;").name = none ∧
      (processLine ⟨some "B", ["SELECT x"], []⟩ "SELECT 1;").query =
        (if (["SELECT x"] : List String) = [] then ["SELECT x"]
         else ["SELECT x"] ++ ["SELECT 1;"])) :=
  ⟨Or.inl (by decide), by decide,
    one_line_query_step ⟨some "B", ["SELECT x"], []⟩ "SELECT 1;"
      (Or.inl (by decide)) (by decide)⟩

/-- Claim C7, counterexample: the line `"foo select bar"` does not begin
with `SELECT` or `select`, yet `start_query` classifies it as starting a
query (the regex `^SELECT|select` parses as `(^SELECT)|(select)`), and
with a pending name set it does begin accumulation. -/
theorem start_query_midline_select_cex :
    start_query "foo select bar" = true ∧
    List.isPrefixOf ("SELECT".data) ("foo select bar").data = false ∧
    List.isPrefixOf ("select".data) ("foo select bar").data = false ∧
    (processLine ⟨some "N", [], []⟩ "foo select bar").query =
      ["foo select bar"] := by decide

/-- Claim C7, amended: for a line that is neither a name line nor a
comment line and does not end a query, with a pending name set and an
empty buffer, accumulation begins on that line exactly when the line
begins with `SELECT` **or contains `select` anywhere** — not only when
it begins with `SELECT`/`select`. -/
theorem accumulation_start_iff (st : ParseState) (line : String)
    (hn : name_pattern line = none) (hi : ignore_line line = false)
    (he : stop_query line = false) (hname : st.name.isSome = true)
    (hq : st.query = []) :
    (processLine st line).query = [line] ↔
      (List.isPrefixOf ("SELECT".data) line.data = true ∨
        containsSub ("select".data) line.data = true) := by
  have hstart : start_query line =
      (List.isPrefixOf ("SELECT".data) line.data ||
        containsSub ("select".data) line.data) := rfl
  cases hsq : start_query line with
  | true =>
    simp only [processLine, hn, hi, hsq, he, Bool.and_false,
      Bool.false_eq_true, if_false]
    simp only [processLine.secondTree, hsq, hname, Bool.and_self, if_true, hq]
    have hr : List.isPrefixOf ("SELECT".data) line.data = true ∨
        containsSub ("select".data) line.data = true := by
      have h2 := hsq
      rw [hstart] at h2
      simpa using h2
    simp only [List.nil_append]
    constructor
    · intro _
      exact hr
    · intro _
      trivial
  | false =>
    have hAB : ("SELECT".data.isPrefixOf line.data ||
        containsSub ("select".data) line.data) = false := by
      rw [← hstart]
      exact hsq
    obtain ⟨hA, hB⟩ := Bool.or_eq_false_iff.mp hAB
    simp only [processLine, hn, hi, hsq, Bool.false_and, Bool.false_eq_true,
      if_false]
    simp only [processLine.secondTree, hsq, he, Bool.false_and,
      Bool.false_eq_true, if_false, hq, ne_eq, not_true_eq_false]
    constructor
    · intro hcontra
      exact absurd hcontra (by simp)
    · intro hab
      rcases hab with h | h
      · rw [h] at hA
        exact absurd hA (by simp)
      · rw [h] at hB
        exact absurd hB (by simp)

theorem accumulation_start_iff_witness :
    name_pattern "foo select bar" = none ∧
    ignore_line "foo select bar" = false ∧
    stop_query "foo select bar" = false ∧
    (ParseState.name ⟨some "N", [], []⟩).isSome = true ∧
    (ParseState.query ⟨some "N", [], []⟩) = [] ∧
    ((processLine ⟨some "N", [], []⟩ "foo select bar").query =
        ["foo select bar"] ↔
      (List.isPrefixOf ("SELECT".data) ("foo select bar").data = true ∨
        containsSub ("select".data) ("foo select bar").data = true)) :=
  ⟨by decide, by decide, by decide, by decide, by decide,
    accumulation_start_iff ⟨some "N", [], []⟩ "foo select bar"
      (by decide) (by decide) (by decide) (by decide) (by decide)⟩

/-- Claim C9: a complete one-line query arriving while no `-- name:`
line has set a pending name is stored in the result mapping under the
key `"NONE"` — `trn` applied to the absent name renders `str(None)` and
normalizes it to `"NONE"` — and the pending name stays unset. -/
theorem unnamed_query_stored_under_NONE (st : ParseState) (line : String)
    (hname : st.name = none)
    (hs : List.isPrefixOf ("SELECT".data) line.data = true)
    (he : stop_query line = true) :
    (processLine st line).selects = dictInsert st.selects "NONE" line ∧
    (processLine st line).name = none := by
  obtain ⟨h1, h2, -⟩ := processLine_select_stop st line (Or.inl hs) he
  rw [hname, trn_none] at h1
  exact ⟨h1, h2⟩

theorem unnamed_query_stored_under_NONE_witness :
    (ParseState.name ⟨none, [], []⟩) = none ∧
    List.isPrefixOf ("SELECT".data) ("SELECT 1;").data = true ∧
    stop_query "SELECT 1;" = true ∧
    ((processLine ⟨none, [], []⟩ "SELECT 1;").selects =
        dictInsert [] "NONE" "SELECT 1;" ∧
      (processLine ⟨none, [], []⟩ "SELECT 1;").name = none) :=
  ⟨by decide, by decide, by decide,
    unnamed_query_stored_under_NONE ⟨none, [], []⟩ "SELECT 1;"
      (by decide) (by decide) (by decide)⟩

/-! ### Claim theorems: the Custom SQL resolver -/

/-- Claim C2: a Custom SQL resolution with materialize on that completes
materialization successfully yields the original SQL text as the
executable target — identical to the target without materialization —
and `get_table` then opens the relation against exactly that text. -/
theorem materialized_target_is_original_sql (mat_name sqlText : String)
    (exec : String → Except String Unit) (t : String)
    (hok : (resolve_custom_sql true mat_name sqlText exec).2 =
      ResolveOutcome.ok t) :
    t = sqlText ∧
    (resolve_custom_sql false mat_name sqlText exec).2 =
      ResolveOutcome.ok sqlText ∧
    (∀ env : GetTableEnv, 0 < env.curIdx →
      env.fileQueries.any (fun p => p.1 = env.itemText) = false →
      env.itemText = "Custom SQL" → env.materialize = true →
      env.materialize_table_name = mat_name → env.sqlText = sqlText →
      env.exec = exec →
      get_table env = open_and_ingest env sqlText
        (resolve_custom_sql true mat_name sqlText exec).1) := by
  have ht : t = sqlText := by
    by_cases hm : mat_name = "" <;>
      [skip;
       rcases hr : (runStatements exec
         (materialize_statements mat_name sqlText)).2 with - | m] <;>
      simp_all [resolve_custom_sql]
  subst ht
  refine ⟨rfl, rfl, ?_⟩
  intro env hidx hfile hitem hmat hmn hsql hexec
  have hle : ¬ env.curIdx ≤ 0 := by omega
  rw [hitem] at hfile
  simp only [get_table, hle, if_false, hfile, Bool.false_eq_true, hitem,
    ne_eq, not_true_eq_false, hmat, hmn, hsql, hexec, hok]

/-- Claim C3: materializing a Custom SQL query with a non-empty table
name issues exactly the three statements drop-if-exists, create-as,
analyze, in that order; the first backend failure aborts the sequence
at once (later statements are not issued, earlier ones stay issued) and
surfaces as a backend error. -/
theorem materialize_three_statements (mat_name sqlText : String)
    (exec : String → Except String Unit) (hname : mat_name ≠ "") :
    ((∀ s ∈ materialize_statements mat_name sqlText, exec s = Except.ok ()) →
      resolve_custom_sql true mat_name sqlText exec =
        (materialize_statements mat_name sqlText,
         ResolveOutcome.ok sqlText)) ∧
    (∀ m, exec ("DROP TABLE IF EXISTS " ++ mat_name) = Except.error m →
      resolve_custom_sql true mat_name sqlText exec =
        (["DROP TABLE IF EXISTS " ++ mat_name],
         ResolveOutcome.backendError m)) ∧
    (∀ m, exec ("DROP TABLE IF EXISTS " ++ mat_name) = Except.ok () →
      exec ("CREATE TABLE " ++ mat_name ++ " AS " ++ sqlText) =
        Except.error m →
      resolve_custom_sql true mat_name sqlText exec =
        (["DROP TABLE IF EXISTS " ++ mat_name,
          "CREATE TABLE " ++ mat_name ++ " AS " ++ sqlText],
         ResolveOutcome.backendError m)) ∧
    (∀ m, exec ("DROP TABLE IF EXISTS " ++ mat_name) = Except.ok () →
      exec ("CREATE TABLE " ++ mat_name ++ " AS " ++ sqlText) =
        Except.ok () →
      exec ("ANALYZE " ++ mat_name) = Except.error m →
      resolve_custom_sql true mat_name sqlText exec =
        (materialize_statements mat_name sqlText,
         ResolveOutcome.backendError m)) := by
  refine ⟨?_, ?_, ?_, ?_⟩
  · intro hall
    have h1 := hall ("DROP TABLE IF EXISTS " ++ mat_name)
      (by simp [materialize_statements])
    have h2 := hall ("CREATE TABLE " ++ mat_name ++ " AS " ++ sqlText)
      (by simp [materialize_statements])
    have h3 := hall ("ANALYZE " ++ mat_name)
      (by simp [materialize_statements])
    simp [resolve_custom_sql, hname, materialize_statements, runStatements,
      h1, h2, h3]
  · intro m h1
    simp [resolve_custom_sql, hname, materialize_statements, runStatements,
      h1]
  · intro m h1 h2
    simp [resolve_custom_sql, hname, materialize_statements, runStatements,
      h1, h2]
  · intro m h1 h2 h3
    simp [resolve_custom_sql, hname, materialize_statements, runStatements,
      h1, h2, h3]

/-- Claim C4: a Custom SQL resolution with materialize on and an empty
table name fails with the validation error before any backend statement
is issued, and `get_table` produces no dataset. -/
theorem empty_materialize_name_fails (sqlText : String)
    (exec : String → Except String Unit) (env : GetTableEnv)
    (hidx : 0 < env.curIdx)
    (hfile : env.fileQueries.any (fun p => p.1 = env.itemText) = false)
    (hitem : env.itemText = "Custom SQL")
    (hmat : env.materialize = true) (hmn : env.materialize_table_name = "") :
    resolve_custom_sql true "" sqlText exec =
      ([], ResolveOutcome.validationError
        "Specify a table name to materialize the query") ∧
    (get_table env).data = none ∧ (get_table env).stmts = [] ∧
    (get_table env).error =
      some "Specify a table name to materialize the query" := by
  have hle : ¬ env.curIdx ≤ 0 := by omega
  refine ⟨rfl, ?_⟩
  rw [hitem] at hfile
  simp only [get_table, hle, if_false, hfile, Bool.false_eq_true, hitem,
    ne_eq, not_true_eq_false, hmat, hmn]
  simp [resolve_custom_sql]

theorem materialized_target_is_original_sql_witness :
    (resolve_custom_sql true "t" "SELECT 1" (fun _ => Except.ok ())).2 =
      ResolveOutcome.ok "SELECT 1" ∧
    ("SELECT 1" : String) = "SELECT 1" ∧
    (resolve_custom_sql false "t" "SELECT 1" (fun _ => Except.ok ())).2 =
      ResolveOutcome.ok "SELECT 1" :=
  ⟨rfl,
    (materialized_target_is_original_sql "t" "SELECT 1"
      (fun _ => Except.ok ()) "SELECT 1" rfl).1,
    (materialized_target_is_original_sql "t" "SELECT 1"
      (fun _ => Except.ok ()) "SELECT 1" rfl).2.1⟩

theorem materialize_three_statements_witness :
    ("t" : String) ≠ "" ∧
    resolve_custom_sql true "t" "SELECT 1" (fun _ => Except.ok ()) =
      (materialize_statements "t" "SELECT 1", ResolveOutcome.ok "SELECT 1") :=
  ⟨by decide,
    (materialize_three_statements "t" "SELECT 1" (fun _ => Except.ok ())
      (by decide)).1 (fun s _ => rfl)⟩

theorem empty_materialize_name_fails_witness :
    (0 : Int) < customEnvEmptyName.curIdx ∧
    customEnvEmptyName.fileQueries.any
      (fun p => p.1 = customEnvEmptyName.itemText) = false ∧
    customEnvEmptyName.itemText = "Custom SQL" ∧
    customEnvEmptyName.materialize = true ∧
    customEnvEmptyName.materialize_table_name = "" ∧
    (resolve_custom_sql true "" "SELECT 1" (fun _ => Except.ok ()) =
      ([], ResolveOutcome.validationError
        "Specify a table name to materialize the query") ∧
    (get_table customEnvEmptyName).data = none ∧
    (get_table customEnvEmptyName).stmts = [] ∧
    (get_table customEnvEmptyName).error =
      some "Specify a table name to materialize the query") :=
  ⟨by decide, rfl, rfl, rfl, rfl,
    empty_materialize_name_fails "SELECT 1" (fun _ => Except.ok ())
      customEnvEmptyName (by decide) rfl rfl rfl rfl⟩

/-! ### Claim theorems: the download policy and connection handling -/

theorem download_phase_le (auto : Nat) (is_pg : Bool) (t : Relation)
    (sfn : Relation → Relation) (pgc : PGChoice) (binc : BinChoice)
    (rows : Nat)
    (h : (download_phase auto is_pg t sfn pgc binc).1 =
      DLOutcome.dataset rows) : rows ≤ MAX_DL_LIMIT := by
  unfold download_phase at h
  repeat' split at h
  all_goals simp_all [download_data]
  all_goals omega

theorem open_and_ingest_download_local (env : GetTableEnv) (what : String)
    (stmts : List String) (d : Dataset) (hdl : env.download = true)
    (h : (open_and_ingest env what stmts).data = some d) :
    ∃ rows, d = Dataset.inMemory rows ∧ rows ≤ MAX_DL_LIMIT := by
  unfold open_and_ingest at h
  cases hop : env.openRelation what with
  | error m => rw [hop] at h; simp at h
  | ok t =>
    rw [hop] at h
    simp only [hdl, if_true] at h
    cases hdl2 : (download_phase env.auto_dl_limit env.is_pg t env.sample_fn
        env.pg_choice env.bin_choice).1 with
    | noDataset => rw [hdl2] at h; simp at h
    | dataset rows =>
      rw [hdl2] at h
      simp only [Option.some.injEq] at h
      exact ⟨rows, h.symm,
        download_phase_le _ _ _ _ _ _ _ hdl2⟩

/-- Claim C1: with download enabled, any dataset `get_table` produces is
a locally materialized table of at most `MAX_DL_LIMIT` rows, whatever
the discovery and download decision points return. -/
theorem download_bounded_by_cap (env : GetTableEnv) (d : Dataset)
    (hdl : env.download = true)
    (hdata : (get_table env).data = some d) :
    ∃ rows, d = Dataset.inMemory rows ∧ rows ≤ MAX_DL_LIMIT := by
  unfold get_table at hdata
  split at hdata
  · simp at hdata
  · split at hdata
    · exact open_and_ingest_download_local _ _ _ _ hdl hdata
    · split at hdata
      · exact open_and_ingest_download_local _ _ _ _ hdl hdata
      · rcases hres : (resolve_custom_sql env.materialize
            env.materialize_table_name env.sqlText env.exec).2 with what | m | m
        · simp only [hres] at hdata
          exact open_and_ingest_download_local _ _ _ _ hdl hdata
        · simp only [hres] at hdata
          simp at hdata
        · simp only [hres] at hdata
          simp at hdata

theorem download_bounded_by_cap_witness :
    sampleEnv.download = true ∧
    (get_table sampleEnv).data = some (Dataset.inMemory 5) ∧
    (∃ rows, Dataset.inMemory 5 = Dataset.inMemory rows ∧
      rows ≤ MAX_DL_LIMIT) :=
  ⟨rfl, rfl,
    download_bounded_by_cap sampleEnv (Dataset.inMemory 5) rfl rfl⟩

theorem discovery_phase_prompts (large : Nat) (guess is_pg : Bool)
    (t : Relation) (c : DiscChoice) (p : Prompt)
    (hp : p ∈ (discovery_phase large guess is_pg t c).2.2) :
    p = Prompt.discoveryPrompt := by
  unfold discovery_phase at hp
  repeat' split at hp
  all_goals simp_all

theorem download_phase_refusal (auto : Nat) (t : Relation)
    (sfn : Relation → Relation) (pgc : PGChoice) (binc : BinChoice)
    (hauto : auto ≤ MAX_DL_LIMIT) (hbig : MAX_DL_LIMIT < t.approx_len) :
    download_phase auto false t sfn pgc binc =
      (DLOutcome.noDataset, [Prompt.sizeWarning]) := by
  have h1 : auto < t.approx_len := lt_of_le_of_lt hauto hbig
  simp [download_phase, h1, hbig]

/-- Claim C8: on a non-PostgreSQL backend with download requested, a
relation whose approximate row count exceeds `MAX_DL_LIMIT` is refused:
`get_table` returns no dataset, sets no error, and shows only the
one-button size warning — neither download decision dialog is invoked. -/
theorem oversize_refused_without_prompt (env : GetTableEnv) (t : Relation)
    (hpg : env.is_pg = false) (hdl : env.download = true)
    (hauto : env.auto_dl_limit ≤ MAX_DL_LIMIT)
    (hidx : 0 < env.curIdx)
    (hfile : env.fileQueries.any (fun p => p.1 = env.itemText) = false)
    (hlive : env.itemText ≠ "Custom SQL")
    (hopen : env.openRelation env.itemText = Except.ok t)
    (hbig : MAX_DL_LIMIT < t.approx_len) :
    (get_table env).data = none ∧
    (get_table env).error = none ∧
    Prompt.pgDownloadPrompt ∉ (get_table env).prompts ∧
    Prompt.questionPrompt ∉ (get_table env).prompts := by
  have hle : ¬ env.curIdx ≤ 0 := by omega
  have hg : get_table env = open_and_ingest env env.itemText [] := by
    simp only [get_table, hle, if_false, hfile, Bool.false_eq_true, hlive,
      ne_eq, not_false_eq_true, if_true]
  have hphase := download_phase_refusal env.auto_dl_limit t env.sample_fn
    env.pg_choice env.bin_choice hauto hbig
  have ho : open_and_ingest env env.itemText [] =
      ⟨none, none, [],
        (discovery_phase env.large_table env.guess_values env.is_pg t
          env.discovery_choice).2.2 ++ [Prompt.sizeWarning]⟩ := by
    simp only [open_and_ingest, hopen, hdl, if_true, hpg, hphase]
  rw [hg, ho]
  refine ⟨rfl, rfl, ?_, ?_⟩ <;>
    · intro hmem
      rcases List.mem_append.mp hmem with hmem | hmem
      · exact absurd (discovery_phase_prompts _ _ _ _ _ _ hmem) (by decide)
      · exact absurd (List.mem_singleton.mp hmem) (by decide)

theorem oversize_refused_without_prompt_witness :
    bigTableEnv.is_pg = false ∧
    bigTableEnv.download = true ∧
    bigTableEnv.auto_dl_limit ≤ MAX_DL_LIMIT ∧
    (0 : Int) < bigTableEnv.curIdx ∧
    bigTableEnv.fileQueries.any
      (fun p => p.1 = bigTableEnv.itemText) = false ∧
    bigTableEnv.itemText ≠ "Custom SQL" ∧
    bigTableEnv.openRelation bigTableEnv.itemText =
      Except.ok ⟨2000000, 2000000⟩ ∧
    MAX_DL_LIMIT < (Relation.approx_len ⟨2000000, 2000000⟩) ∧
    ((get_table bigTableEnv).data = none ∧
      (get_table bigTableEnv).error = none ∧
      Prompt.pgDownloadPrompt ∉ (get_table bigTableEnv).prompts ∧
      Prompt.questionPrompt ∉ (get_table bigTableEnv).prompts) :=
  ⟨rfl, rfl, by decide, by decide, rfl, by decide, rfl, by decide,
    oversize_refused_without_prompt bigTableEnv ⟨2000000, 2000000⟩
      rfl rfl (by decide) (by decide) rfl (by decide) rfl (by decide)⟩

/-- Claim C10: a successful connection to a backend that is not
PostgreSQL, or that is missing extensions, forces the download setting
on and disables its checkbox; `clear` re-enables the checkbox (making
the option user-controllable again) without turning the setting off. -/
theorem forced_download_on_limited_backend (st : UIState) (is_pg : Bool)
    (ext : List String) (h : is_pg = false ∨ ext ≠ []) :
    (on_connection_success st is_pg ext).download = true ∧
    (on_connection_success st is_pg ext).downloadcb_enabled = false ∧
    (widget_clear (on_connection_success st is_pg ext)).downloadcb_enabled =
      true ∧
    (widget_clear (on_connection_success st is_pg ext)).download =
      (on_connection_success st is_pg ext).download := by
  unfold on_connection_success widget_clear
  rcases h with h | h
  · subst h
    by_cases he : ext = [] <;> simp [he]
  · cases is_pg <;> simp [h]

theorem forced_download_on_limited_backend_witness :
    ((false : Bool) = false ∨ ([] : List String) ≠ []) ∧
    ((on_connection_success ⟨false, true, none⟩ false []).download = true ∧
      (on_connection_success ⟨false, true, none⟩ false
        []).downloadcb_enabled = false ∧
      (widget_clear (on_connection_success ⟨false, true, none⟩ false
        [])).downloadcb_enabled = true ∧
      (widget_clear (on_connection_success ⟨false, true, none⟩ false
        [])).download =
        (on_connection_success ⟨false, true, none⟩ false []).download) :=
  ⟨Or.inl rfl,
    forced_download_on_limited_backend ⟨false, true, none⟩ false []
      (Or.inl rfl)⟩
